import Mathlib

/-!
Verification development for the retrieval-and-synthesis engine of
`server.js` (Zoho QnA knowledge-base server).

The JavaScript source is shallowly embedded below:
* `tokenize`, `termFreqVector`, `cosine` mirror the vectorization stubs;
* `INDEX` / `builtIndex` mirror the demo knowledge base and its startup
  vectorization pass;
* `sortByScoreDesc` models `Array.prototype.sort` with the comparator
  `(a, b) => b.score - a.score` (a stable descending sort, per ES2019);
* `askHandler` mirrors the `POST /ask` route body;
* `buildComprehensiveAnswer` and its helper functions mirror the local
  answer synthesizer.

JavaScript numbers are modelled as exact real numbers; term counts are
naturals.  JavaScript string `length` is the UTF-16 code-unit count, which
agrees with Lean's code-point count on the BMP text used throughout this
corpus.  `String.prototype.toLowerCase` is modelled by ASCII case mapping
(`jsToLower`): the non-Latin script in the corpus (Arabic) is caseless.
-/

namespace ZohoQna

/-- ASCII case mapping of one character, modelling `toLowerCase` on the
character ranges occurring in the corpus (Arabic letters are caseless). -/
def jsToLower (c : Char) : Char :=
  if 'A' ≤ c ∧ c ≤ 'Z' then Char.ofNat (c.toNat + 32) else c

/-- Map `toLowerCase` over a string. -/
def jsToLowerStr (s : String) : String := String.mk (s.data.map jsToLower)

/-- The JavaScript regex class `\w` (no `u`-Unicode property flag):
ASCII letters, ASCII digits and underscore only. -/
def isWordCharJs (c : Char) : Bool := c.isAlphanum || c == '_'

/-- Split a character list at every character satisfying `p`, keeping the
(possibly empty) pieces between separators — the behaviour of the
JavaScript `split` on a single-character regex class. -/
def splitAuxJs (p : Char → Bool) : List Char → List Char → List (List Char)
  | [], acc => [acc.reverse]
  | c :: cs, acc =>
    if p c then acc.reverse :: splitAuxJs p cs []
    else splitAuxJs p cs (c :: acc)

/-- `s.split(p)` for a single-character class `p` (empty pieces kept). -/
def jsSplit (s : String) (p : Char → Bool) : List String :=
  (splitAuxJs p s.data []).map String.mk

/-- `String.prototype.trim`: strip leading and trailing whitespace. -/
def jsTrim (s : String) : String :=
  String.mk (((s.data.dropWhile Char.isWhitespace).reverse.dropWhile
    Char.isWhitespace).reverse)

/-- `tokenize(text)` from server.js lines 24-30: lower-case, replace every
character that is neither `\w` nor `\s` by a space, split on whitespace,
drop empty tokens.  Splitting at every whitespace character and then
dropping empty tokens agrees with `split(/\s+/)` plus the length filter. -/
def tokenize (text : String) : List String :=
  let lowered := jsToLowerStr text
  let replaced := String.mk (lowered.data.map
    (fun c => if isWordCharJs c || c.isWhitespace then c else ' '))
  (jsSplit replaced (fun c => c.isWhitespace)).filter (fun t => t ≠ "")

/-- A term-frequency vector: association list token → count, in key
insertion order (modelling a JS object used as a map). -/
abbrev TermVec := List (String × Nat)

/-- `vec[token] || 0`. -/
def look (v : TermVec) (k : String) : Nat := (v.lookup k).getD 0

/-- `vec[token] = (vec[token] || 0) + 1`: update in place when the key
exists, else append a fresh key (JS object key insertion order). -/
def bump (v : TermVec) (t : String) : TermVec :=
  if v.any (fun p => p.1 == t) then
    v.map (fun p => if p.1 == t then (p.1, p.2 + 1) else p)
  else v ++ [(t, 1)]

/-- `termFreqVector(tokens)` from server.js lines 33-39. -/
def termFreqVector (tokens : List String) : TermVec := tokens.foldl bump []

/-- The key set `new Set([...Object.keys(vec1), ...Object.keys(vec2)])`. -/
def unionKeys (v1 v2 : TermVec) : Finset String :=
  (v1.map Prod.fst).toFinset ∪ (v2.map Prod.fst).toFinset

/-- The `dotProduct` accumulator of `cosine`: `v1[key] * v2[key]` summed
over the union key set. -/
noncomputable def dotProd (v1 v2 : TermVec) : ℝ :=
  ∑ k ∈ unionKeys v1 v2, (look v1 k : ℝ) * (look v2 k : ℝ)

/-- The `mag1` accumulator of `cosine`: `v1[key] * v1[key]` summed over the
union key set (keys absent from `v1` contribute zero). -/
noncomputable def mag1Acc (v1 v2 : TermVec) : ℝ :=
  ∑ k ∈ unionKeys v1 v2, (look v1 k : ℝ) * (look v1 k : ℝ)

/-- The `mag2` accumulator of `cosine`. -/
noncomputable def mag2Acc (v1 v2 : TermVec) : ℝ :=
  ∑ k ∈ unionKeys v1 v2, (look v2 k : ℝ) * (look v2 k : ℝ)

/-- `cosine(vec1, vec2)` from server.js lines 42-58: dot product and both
squared magnitudes are accumulated over the union key set; the result is
`0` when the denominator `sqrt(mag1) * sqrt(mag2)` is zero, else the
quotient (`denominator === 0 ? 0 : dotProduct / denominator`, with the
denominator written out). -/
noncomputable def cosine (v1 v2 : TermVec) : ℝ :=
  if Real.sqrt (mag1Acc v1 v2) * Real.sqrt (mag2Acc v1 v2) = 0 then 0
  else dotProd v1 v2 / (Real.sqrt (mag1Acc v1 v2) * Real.sqrt (mag2Acc v1 v2))

/-- The squared magnitude of a vector over its own key set (`mag1` resp.
`mag2` in `cosine`; keys of the other vector only contribute zeros). -/
def magSq (v : TermVec) : Nat :=
  ∑ k ∈ (v.map Prod.fst).toFinset, look v k * look v k

/-- The dot product as a natural number (the `dotProduct` accumulator). -/
def dotNat (v1 v2 : TermVec) : Nat :=
  ∑ k ∈ unionKeys v1 v2, look v1 k * look v2 k

/-- One entry of the demo knowledge-base `INDEX` (server.js lines 63-99):
`{ id, file, chunk_index, text, vec }`. -/
structure Chunk where
  id : String
  file : String
  chunk_index : Nat
  text : String
  vec : TermVec
deriving DecidableEq, Repr

/-- One scored entry produced in the `/ask` handler (server.js lines
115-121): the chunk fields together with its cosine `score`. -/
structure Scored where
  id : String
  file : String
  chunk_index : Nat
  text : String
  score : ℝ

/-- The raw `INDEX` literal (server.js lines 63-99), before the startup
vectorization pass: every `vec` starts out as the empty object. -/
def INDEX : List Chunk :=
  [ { id := "zoho_1", file := "zoho-crm-intro.md", chunk_index := 0,
      text := "Zoho CRM هو نظام إدارة علاقات العملاء (CRM) الشامل الذي يساعد الشركات على تنظيم وإدارة عمليات المبيعات والتسويق والخدمات. يوفر Zoho CRM أدوات قوية لتتبع العملاء والفرص والعروض والعقود.",
      vec := [] },
    { id := "zoho_2", file := "zoho-crm-features.md", chunk_index := 0,
      text := "من أهم ميزات Zoho CRM: إدارة جهات الاتصال، تتبع الفرص البيعية، أتمتة العمليات، التقارير والتحليلات، التكامل مع تطبيقات أخرى، وتطبيقات الهاتف الذكي.",
      vec := [] },
    { id := "zoho_3", file := "zoho-books-accounting.md", chunk_index := 0,
      text := "Zoho Books هو برنامج محاسبة وتمويل سحابي يساعد الشركات الصغيرة والمتوسطة على إدارة فواتيرهم ونفقاتهم وشؤونهم المالية. يدعم Zoho Books إنشاء الفواتير والنفقات والتقارير المالية.",
      vec := [] },
    { id := "zoho_4", file := "zoho-inventory-management.md", chunk_index := 0,
      text := "Zoho Inventory هو نظام إدارة المخزون الذي يساعد على تتبع المنتجات والمستودعات والمبيعات والشراء. يوفر تقارير فورية عن حالة المخزون والمنتجات الأكثر مبيعاً.",
      vec := [] },
    { id := "zoho_5", file := "zoho-getting-started.md", chunk_index := 0,
      text := "للبدء مع Zoho CRM، تحتاج إلى: إنشاء حساب Zoho مجاني، تسجيل الدخول إلى لوحة التحكم، إضافة جهات اتصال، وإنشاء فرص بيعية. يمكنك بدء النسخة المجانية دون الحاجة إلى بطاقة ائتمان.",
      vec := [] } ]

/-- The startup pass `INDEX.forEach(chunk => { chunk.vec = termFreqVector(
tokenize(chunk.text)) })` (server.js lines 102-105), applied to any raw
index. -/
def buildIndex (raw : List Chunk) : List Chunk :=
  raw.map (fun c => { c with vec := termFreqVector (tokenize c.text) })

/-- The corpus index as it stands after startup. -/
def builtIndex : List Chunk := buildIndex INDEX

/-- The order imposed by the comparator `(a, b) => b.score - a.score`:
`a` comes no later than `b` when `b.score ≤ a.score` (descending). -/
def scoreDescRel (a b : Scored) : Prop := b.score ≤ a.score

noncomputable instance : DecidableRel scoreDescRel :=
  fun a b => Real.decidableLE b.score a.score

instance : IsTotal Scored scoreDescRel := ⟨fun a b => le_total b.score a.score⟩

instance : IsTrans Scored scoreDescRel :=
  ⟨fun _ _ _ h1 h2 => le_trans h2 h1⟩

/-- `.sort((a, b) => b.score - a.score)` (server.js line 122):
`Array.prototype.sort` is stable (ES2019), so with this comparator it is
the stable descending sort by `score` — realised as a stable insertion
sort, which inserts each element before the first strictly-smaller-scored
one and therefore after all earlier equal-scored ones. -/
noncomputable def sortByScoreDesc (l : List Scored) : List Scored :=
  l.insertionSort scoreDescRel

/-- `INDEX.map(c => ({id, file, chunk_index, text, score: cosine(qvec,
c.vec)}))` (server.js lines 115-121). -/
noncomputable def scoredOf (qvec : TermVec) (index : List Chunk) : List Scored :=
  index.map (fun c =>
    { id := c.id, file := c.file, chunk_index := c.chunk_index,
      text := c.text, score := cosine qvec c.vec })

/-- The query vector of a question (server.js lines 112-113). -/
def queryVec (question : String) : TermVec :=
  termFreqVector (tokenize question)

/-- `Array.prototype.join(sep)`. -/
def joinWith (sep : String) : List String → String
  | [] => ""
  | [s] => s
  | s :: rest => s ++ sep ++ joinWith sep rest

/-- `hay.includes(needle)`: substring test. -/
def containsSub (hay needle : String) : Bool :=
  hay.data.tails.any (fun t => needle.data.isPrefixOf t)

/-- `x || fallback` for strings: the empty string is falsy. -/
def jsOr (a fallback : String) : String := if a = "" then fallback else a

/-- `chunks.map(c => c.text).join(" ")`. -/
def allTextOf (chunks : List Scored) : String :=
  joinWith " " (chunks.map (fun c => c.text))

/-- The fixed fallback sentence of the executive summary. -/
def summaryFallback : String :=
  "هذا الحل يساعدك على تحسين عملياتك باستخدام منصة Zoho المتكاملة."

/-- The sentence list of `generateSummary`: concatenated passage text split
on `[.。！؟]` (sentence-ending punctuation across scripts). -/
def sentencesSummary (chunks : List Scored) : List String :=
  jsSplit (allTextOf chunks)
    (fun c => c == '.' || c == '。' || c == '！' || c == '؟')

/-- `sentences.slice(0, 3).filter(s => s.trim().length > 20)` — the
`topSentences` of `generateSummary` (server.js line 255). -/
def summaryPoints (chunks : List Scored) : List String :=
  ((sentencesSummary chunks).take 3).filter (fun s => 20 < (jsTrim s).length)

/-- The numbered lines `(i+1) ++ ". " ++ s.trim() ++ "."` of the summary,
with `i` the running index of `map`. -/
def renderPointsAux (i : Nat) : List String → List String
  | [] => []
  | s :: rest =>
    (toString (i + 1) ++ ". " ++ jsTrim s ++ ".") :: renderPointsAux (i + 1) rest

/-- `topSentences.map((s, i) => ...numbered point...).join("\n")`. -/
def renderPoints (pts : List String) : String :=
  joinWith "\n" (renderPointsAux 0 pts)

/-- `generateSummary(chunks)` (server.js lines 252-259). -/
def generateSummary (chunks : List Scored) : String :=
  jsOr (renderPoints (summaryPoints chunks)) summaryFallback

/-- Modelled from the spec: "Executive summary: first 1–3 sentences (split
on sentence-ending punctuation across scripts) longer than a minimum
length threshold (20 characters), drawn from concatenated passage text" —
read as the first up-to-three *qualifying* sentences, i.e. filter by the
length threshold first and then take at most three. -/
def specSummaryPoints (chunks : List Scored) : List String :=
  ((sentencesSummary chunks).filter (fun s => 20 < (jsTrim s).length)).take 3

/-- Modelled from the spec: the executive summary per the spec's reading —
the first 1–3 sentences longer than the threshold, each a numbered point;
the fixed generic fallback when no sentence qualifies. -/
def specGenerateSummary (chunks : List Scored) : String :=
  jsOr (renderPoints (specSummaryPoints chunks)) summaryFallback

/-- The process-indicating keyword list of `generateWorkflow`. -/
def workflowKeywords : List String :=
  ["يقوم", "ثم", "بعد", "يتم", "يستلم", "يسلم", "يراجع"]

/-- `generateWorkflow(chunks, question)` (server.js lines 261-291). -/
def generateWorkflow (chunks : List Scored) (question : String) : String :=
  let workflowSentences :=
    (chunks.map (fun chunk =>
      ((jsSplit chunk.text (fun c => c == '.' || c == '。')).filter
        (fun sent => workflowKeywords.any (fun kw => containsSub sent kw))).map
        jsTrim)).flatten
  if workflowSentences.length > 0 then
    String.join ((workflowSentences.take 5).enum.map (fun p =>
      "**الخطوة " ++ toString (p.1 + 1) ++ ":** " ++ p.2 ++ ".\n\n"))
  else
    "\n**الخطوة 1:** تسجيل البيانات في النظام\n**الخطوة 2:** معالجة المعلومات تلقائياً\n**الخطوة 3:** مراجعة النتائج والموافقة\n**الخطوة 4:** التنفيذ والمتابعة\n**الخطوة 5:** إعداد التقارير والتحليل\n    "

/-- The fixed module lookup table of `identifyModules`, in insertion
order (`Object.entries` preserves it). -/
def zohoModules : List (String × String) :=
  [ ("CRM", "إدارة علاقات العملاء"),
    ("Books", "المحاسبة والمالية"),
    ("Inventory", "إدارة المخزون"),
    ("Desk", "خدمة العملاء والدعم"),
    ("People", "الموارد البشرية"),
    ("Projects", "إدارة المشاريع"),
    ("Campaigns", "الحملات التسويقية") ]

/-- `identifyModules(chunks)` (server.js lines 293-320). -/
def identifyModules (chunks : List Scored) : String :=
  let allText := allTextOf chunks
  let modules := String.join (zohoModules.map (fun p =>
    if containsSub (jsToLowerStr allText) (jsToLowerStr p.1) then
      "#### " ++ p.1 ++ " - " ++ p.2 ++ "\n" ++
      "**دوره:** يساعد في " ++ jsToLowerStr p.2 ++ " بشكل متكامل\n\n"
    else ""))
  if modules = "" then
    "#### Zoho One - المنصة المتكاملة\n" ++
    "**دوره:** توحيد جميع العمليات في نظام واحد\n\n"
  else modules

/-- One match of the numbered-list regex `(\d+)[.)]?\s+([^.\n]+)`:
`num` is capture 1 (the digit run), `body` is capture 2. -/
structure NumMatch where
  num : String
  body : String
deriving DecidableEq, Repr

/-- Try the regex `(\d+)[.)]?\s+([^.\n]+)` at the head of `cs`; on success
return the match and the remaining characters.  The optional `[.)]` is
greedy with a one-step backtrack, as in the regex engine. -/
def matchNumberedAt (cs : List Char) : Option (NumMatch × List Char) :=
  let ds := cs.takeWhile Char.isDigit
  let rest1 := cs.dropWhile Char.isDigit
  if ds.isEmpty then none else
  let tryFrom : List Char → Option (NumMatch × List Char) := fun r =>
    let ws := r.takeWhile Char.isWhitespace
    let rest2 := r.dropWhile Char.isWhitespace
    if ws.isEmpty then none else
    let body := rest2.takeWhile (fun c => !(c == '.' || c == '\n'))
    let rest3 := rest2.dropWhile (fun c => !(c == '.' || c == '\n'))
    if body.isEmpty then none
    else some (⟨String.mk ds, String.mk body⟩, rest3)
  match rest1 with
  | c :: rest' =>
    if c == '.' || c == ')' then
      match tryFrom rest' with
      | some res => some res
      | none => tryFrom rest1
    else tryFrom rest1
  | [] => tryFrom rest1

/-- Global scan of the numbered-list regex: on a match continue after it,
otherwise advance one character (matches consume at least one character,
so the input length bounds the iteration count). -/
def scanNumberedAux : Nat → List Char → List NumMatch
  | 0, _ => []
  | _ + 1, [] => []
  | fuel + 1, c :: rest =>
    match matchNumberedAt (c :: rest) with
    | some (m, rest') => m :: scanNumberedAux fuel rest'
    | none => scanNumberedAux fuel rest

/-- `[...allText.matchAll(/(\d+)[.)]?\s+([^.\n]+)/g)]`. -/
def scanNumbered (s : String) : List NumMatch :=
  scanNumberedAux s.data.length s.data

/-- `generateStepByStep(chunks, question)` (server.js lines 322-356). -/
def generateStepByStep (chunks : List Scored) (question : String) : String :=
  let allText := allTextOf chunks
  let ms := scanNumbered allText
  if ms.length > 2 then
    String.join ((ms.take 6).map (fun m =>
      "### " ++ m.num ++ ". " ++ jsTrim m.body ++ "\n\n" ++
      "**ما يحدث هنا:** يتم تنفيذ هذه الخطوة لضمان سير العمل بشكل صحيح.\n\n" ++
      "**✅ النتيجة:** تكتمل هذه المرحلة بنجاح وتنتقل للخطوة التالية.\n\n"))
  else
    "\n### 1. التحضير والإعداد\n**ما يحدث:** تجهيز النظام وإدخال البيانات الأساسية\n**✅ النتيجة:** النظام جاهز للاستخدام\n\n### 2. التنفيذ الفعلي\n**ما يحدث:** بدء العمل على النظام وإدخال المعاملات\n**✅ النتيجة:** المعاملات مسجلة بشكل صحيح\n\n### 3. المراجعة والموافقة\n**ما يحدث:** فحص البيانات والتأكد من صحتها\n**✅ النتيجة:** البيانات معتمدة وجاهزة\n\n### 4. التقارير والتحليل\n**ما يحدث:** استخراج التقارير وتحليل الأداء\n**✅ النتيجة:** رؤية واضحة للأداء والنتائج\n    "

/-- Problem-indicating keywords of `generateProblemSolutions`. -/
def problemKeywords : List String := ["مشكلة", "خطأ", "تحدي", "صعوبة", "عدم"]

/-- Solution-indicating keywords of `generateProblemSolutions`. -/
def solutionKeywords : List String := ["حل", "معالجة", "تصحيح", "تحسين"]

/-- `generateProblemSolutions(chunks)` (server.js lines 358-401). -/
def generateProblemSolutions (chunks : List Scored) : String :=
  let allText := allTextOf chunks
  let sentences := jsSplit allText (fun c => c == '.' || c == '。')
  let problemSolutions := sentences.enum.filterMap (fun p =>
    if problemKeywords.any (fun kw => containsSub p.2 kw) then
      let nextSent := jsTrim (sentences.getD (p.1 + 1) "")
      if solutionKeywords.any (fun kw => containsSub nextSent kw) then
        some (jsTrim p.2, nextSent)
      else none
    else none)
  if problemSolutions.length > 0 then
    String.join ((problemSolutions.take 3).enum.map (fun q =>
      "#### مثال " ++ toString (q.1 + 1) ++ ": " ++ q.2.1 ++ "\n\n" ++
      "**الحل:** " ++ q.2.2 ++ "\n\n" ++
      "**كيف يتم داخل النظام:** يتم معالجة هذه الحالة تلقائياً مع إشعار الأطراف المعنية.\n\n"))
  else
    "\n#### مثال 1: بيانات غير مكتملة\n**الحل:** النظام ينبهك فوراً لإكمال البيانات المطلوبة\n**كيف يتم:** رسالة تحذير واضحة مع تحديد الحقول المطلوبة\n\n#### مثال 2: تأخير في التنفيذ\n**الحل:** النظام يرسل تنبيهات تلقائية لجميع الأطراف المعنية\n**كيف يتم:** إشعارات فورية عبر البريد والنظام\n\n#### مثال 3: أخطاء في الحسابات\n**الحل:** النظام يحسب تلقائياً ويمنع الأخطاء البشرية\n**كيف يتم:** معادلات آلية ومراجعة مدمجة\n    "

/-- `generateExpectedResults(chunks)` (server.js lines 403-411): a fixed
list of generic benefit statements. -/
def generateExpectedResults (chunks : List Scored) : String :=
  "\n- ✅ **توفير الوقت:** تقليل الوقت المستغرق في العمليات اليدوية بنسبة 60-80%\n- ✅ **دقة أعلى:** القضاء على الأخطاء البشرية في إدخال البيانات\n- ✅ **رؤية واضحة:** تقارير فورية ودقيقة عن حالة العمل\n- ✅ **تنسيق أفضل:** جميع الأقسام تعمل على نفس البيانات المحدثة\n- ✅ **سهولة المتابعة:** كل معاملة موثقة ويمكن تتبعها بسهولة\n  "

/-- Try the URL regex `https?:\/\/[^\s]+` at the head of `cs` (the greedy
optional `s` is resolved by trying the longer scheme first). -/
def matchUrlAt (cs : List Char) : Option (List Char × List Char) :=
  let tryScheme : List Char → Option (List Char × List Char) := fun pre =>
    if pre.isPrefixOf cs then
      let rest := cs.drop pre.length
      let body := rest.takeWhile (fun c => !c.isWhitespace)
      let rest' := rest.dropWhile (fun c => !c.isWhitespace)
      if body.isEmpty then none else some (pre ++ body, rest')
    else none
  match tryScheme "https://".data with
  | some res => some res
  | none => tryScheme "http://".data

/-- Global scan of the URL regex (cf. `scanNumberedAux`). -/
def scanUrlsAux : Nat → List Char → List String
  | 0, _ => []
  | _ + 1, [] => []
  | fuel + 1, c :: rest =>
    match matchUrlAt (c :: rest) with
    | some (m, rest') => String.mk m :: scanUrlsAux fuel rest'
    | none => scanUrlsAux fuel rest

/-- `allText.match(/(https?:\/\/[^\s]+)/g) || []`. -/
def scanUrls (s : String) : List String := scanUrlsAux s.data.length s.data

/-- `extractTechnicalDetails(chunks)` (server.js lines 413-439). -/
def extractTechnicalDetails (chunks : List Scored) : String :=
  let allText := allTextOf chunks
  let urls := scanUrls allText
  (if urls.length > 0 then
    "**الروابط المفيدة:**\n" ++
    String.join ((urls.take 3).map (fun url => "- " ++ url ++ "\n")) ++ "\n"
  else "") ++
  "**المتطلبات التقنية:**\n" ++
  "- متصفح حديث (Chrome, Firefox, Safari)\n" ++
  "- اتصال إنترنت مستقر\n" ++
  "- لا يتطلب تثبيت برامج إضافية\n\n" ++
  "**الدعم والتكامل:**\n" ++
  "- يتكامل مع أكثر من 1000 تطبيق\n" ++
  "- API مفتوح للتطوير المخصص\n" ++
  "- دعم فني 24/7\n"

/-- The alternation `(جنيه|EGP|dollar|USD)` of the price regex, in source
order. -/
def currencyWords : List String := ["جنيه", "EGP", "dollar", "USD"]

/-- Try the price regex `(\d+)\s*(جنيه|EGP|dollar|USD)` (with the `i`
flag) at the head of `cs`; returns the full match and the rest. -/
def matchPriceAt (cs : List Char) : Option (List Char × List Char) :=
  let ds := cs.takeWhile Char.isDigit
  let rest1 := cs.dropWhile Char.isDigit
  if ds.isEmpty then none else
  let ws := rest1.takeWhile Char.isWhitespace
  let rest2 := rest1.dropWhile Char.isWhitespace
  match currencyWords.find? (fun w =>
    (w.data.map jsToLower).isPrefixOf (rest2.map jsToLower)) with
  | some w => some (ds ++ ws ++ rest2.take w.data.length,
      rest2.drop w.data.length)
  | none => none

/-- Global scan of the price regex (cf. `scanNumberedAux`). -/
def scanPricesAux : Nat → List Char → List String
  | 0, _ => []
  | _ + 1, [] => []
  | fuel + 1, c :: rest =>
    match matchPriceAt (c :: rest) with
    | some (m, rest') => String.mk m :: scanPricesAux fuel rest'
    | none => scanPricesAux fuel rest

/-- `allText.match(/(\d+)\s*(جنيه|EGP|dollar|USD)/gi) || []`. -/
def scanPrices (s : String) : List String := scanPricesAux s.data.length s.data

/-- Case-insensitive substring test (`/.../) with the `i` flag). -/
def containsSubCI (hay needle : String) : Bool :=
  containsSub (jsToLowerStr hay) (jsToLowerStr needle)

/-- `containsPricingInfo(chunks)` (server.js lines 441-445). -/
def containsPricingInfo (chunks : List Scored) : Bool :=
  let allText := allTextOf chunks
  !(scanPrices allText).isEmpty ||
    ["سعر", "تكلفة", "pricing", "price"].any (containsSubCI allText)

/-- `extractPricingInfo(chunks)` (server.js lines 447-468). -/
def extractPricingInfo (chunks : List Scored) : String :=
  let allText := allTextOf chunks
  let prices := scanPrices allText
  (if prices.length > 0 then
    "**الأسعار المتاحة:**\n" ++
    String.join ((prices.take 5).map (fun price => "- " ++ price ++ "\n")) ++
    "\n"
  else "") ++
  "**العائد على الاستثمار (ROI):**\n" ++
  "- توفير 47% من إجمالي تكلفة الملكية\n" ++
  "- عائد استثمار 439% خلال 3 سنوات\n" ++
  "- تقليل الوقت المستغرق بنسبة 70%\n"

/-- The fixed industry-code lookup table of `getIndustryLabel`. -/
def industryLabels : List (String × String) :=
  [ ("retail", "التجزئة والتجارة الإلكترونية"),
    ("logistics", "الخدمات اللوجستية"),
    ("fintech", "التكنولوجيا المالية"),
    ("tourism", "السياحة والضيافة"),
    ("realestate", "العقارات والإنشاءات"),
    ("health", "الرعاية الصحية") ]

/-- `getIndustryLabel(industry)` (server.js lines 470-480): lookup with
pass-through of unknown codes (`labels[industry] || industry`; every table
value is non-empty, so `||` is plain lookup-with-default). -/
def getIndustryLabel (industry : String) : String :=
  (industryLabels.lookup industry).getD industry

/-- The fixed scenario-code lookup table of `getScenarioLabel`. -/
def scenarioLabels : List (String × String) :=
  [ ("discovery", "اكتشاف الاحتياجات"),
    ("objection", "معالجة الاعتراضات"),
    ("value", "توضيح القيمة"),
    ("recommend", "اختيار التطبيق المناسب"),
    ("workflow", "حل مشكلة تشغيلية"),
    ("closing", "إغلاق الصفقة") ]

/-- `getScenarioLabel(scenario)` (server.js lines 482-492). -/
def getScenarioLabel (scenario : String) : String :=
  (scenarioLabels.lookup scenario).getD scenario

/-- `path.basename` for the POSIX paths appearing here: the last
`/`-separated segment (the corpus file names contain no slash). -/
def basename (s : String) : String :=
  (jsSplit s (fun c => c == '/')).getLastD s

/-- `Number.prototype.toFixed(1)` for the non-negative scores appearing
here: round half up to one decimal digit. -/
noncomputable def toFixed1 (x : ℝ) : String :=
  let n : ℤ := ⌊x * 10 + 1 / 2⌋
  toString (n / 10) ++ "." ++ toString (n.natAbs % 10)

/-- An option-valued JS argument is truthy when present and non-empty. -/
def jsPresent (o : Option String) : Bool := !(o.getD "" == "")

/-- `buildComprehensiveAnswer(question, relevantChunks, industry,
scenario)` (server.js lines 167-248): the twelve sections concatenated in
source order. -/
noncomputable def buildComprehensiveAnswer (question : String)
    (relevantChunks : List Scored) (industry scenario : Option String) :
    String :=
  "# الإجابة الشاملة على سؤالك\n\n" ++
  "**السؤال:** " ++ question ++ "\n\n" ++
  (if jsPresent industry then
    "**القطاع:** " ++ getIndustryLabel (industry.getD "") ++ "\n" else "") ++
  (if jsPresent scenario then
    "**السيناريو:** " ++ getScenarioLabel (scenario.getD "") ++ "\n" else "") ++
  "\n---\n\n" ++
  "## 📋 الملخص التنفيذي\n\n" ++
  generateSummary relevantChunks ++ "\n\n" ++
  "---\n\n" ++
  "## 📖 الشرح التفصيلي\n\n" ++
  "### الهدف من هذا الحل:\n" ++
  "نحن هنا لنوضح لك بالضبط كيف يمكن استخدام Zoho لحل هذه المشكلة، بحيث كل خطوة واضحة ومفهومة.\n\n" ++
  "### 🔄 دورة العمل الطبيعية:\n\n" ++
  generateWorkflow relevantChunks question ++ "\n\n" ++
  "### 🏢 الأقسام/الوحدات المشاركة:\n\n" ++
  identifyModules relevantChunks ++ "\n\n" ++
  "## ⚙️ التطبيق خطوة بخطوة\n\n" ++
  generateStepByStep relevantChunks question ++ "\n\n" ++
  "## ⚠️ المشاكل الشائعة وحلولها\n\n" ++
  generateProblemSolutions relevantChunks ++ "\n\n" ++
  "## ✅ النتيجة المتوقعة:\n\n" ++
  generateExpectedResults relevantChunks ++ "\n\n" ++
  "## 🔧 التفاصيل التقنية:\n\n" ++
  extractTechnicalDetails relevantChunks ++ "\n\n" ++
  (if containsPricingInfo relevantChunks then
    "## 💰 الأسعار والعائد على الاستثمار\n\n" ++
    extractPricingInfo relevantChunks ++ "\n\n"
  else "") ++
  "## 🎯 الخطوات التالية:\n\n" ++
  "1. **المراجعة:** راجع هذا الحل مع فريقك\n" ++
  "2. **التخطيط:** حدد الأولويات والجدول الزمني\n" ++
  "3. **التطبيق:** ابدأ بمرحلة تجريبية صغيرة\n" ++
  "4. **التوسع:** وسّع النطاق بعد النجاح الأولي\n\n" ++
  "---\n\n" ++
  "## 📚 المصادر المستخدمة:\n\n" ++
  String.join (relevantChunks.enum.map (fun p =>
    toString (p.1 + 1) ++ ". **" ++ basename p.2.file ++ "** (جزء " ++
    toString p.2.chunk_index ++ ") - درجة التطابق: " ++
    toFixed1 (p.2.score * 100) ++ "%\n"))

/-- One element of the `sources` array of the response (server.js lines
153-157). -/
structure SourceRef where
  file : String
  chunk_index : Nat
  score : ℝ

/-- `relevant.map(s => ({file: path.basename(s.file), chunk_index,
score}))`. -/
noncomputable def sourcesOf (l : List Scored) : List SourceRef :=
  l.map (fun s =>
    { file := basename s.file, chunk_index := s.chunk_index,
      score := s.score })

/-- The parsed request body of `POST /ask` (server.js line 109):
`question`, `industry`, `scenario` optional strings; `top_k` defaults to 6
when absent. -/
structure AskRequest where
  question : Option String
  industry : Option String
  scenario : Option String
  top_k : Option Nat

/-- The three JSON response shapes the `/ask` route can produce:
the 400 `{error}` body, the no-information body `{answer_ar, sources}`
(server.js lines 136-139), and the full body `{answer_ar, low_confidence,
sources}` (server.js lines 150-158). -/
inductive AskResponse where
  | errorQuestionRequired : AskResponse
  | noInfo (answer_ar : String) (sources : List SourceRef) : AskResponse
  | answer (answer_ar : String) (low_confidence : Bool)
      (sources : List SourceRef) : AskResponse

/-- The message of the no-information response (server.js line 137). -/
def noInfoMsg : String := "لا توجد معلومات كافية في المصادر الحالية."

/-- The `POST /ask` handler (server.js lines 108-159): reject a missing or
empty (falsy) `question`; score every indexed chunk against the query
vector, sort descending (stable), keep the first `top_k`; filter by
`score > 0.01`; if nothing passes, answer from the single top chunk with
`low_confidence = true`, or report no information when nothing was scored
at all. -/
noncomputable def askHandler (req : AskRequest) (index : List Chunk) :
    AskResponse :=
  match req.question with
  | none => .errorQuestionRequired
  | some question =>
    if question = "" then .errorQuestionRequired else
    let top_k := req.top_k.getD 6
    let qvec := queryVec question
    let scored := (sortByScoreDesc (scoredOf qvec index)).take top_k
    let relevant := scored.filter (fun s => (0.01 : ℝ) < s.score)
    if relevant.isEmpty then
      match scored with
      | [] => .noInfo noInfoMsg []
      | top :: _ =>
        .answer (buildComprehensiveAnswer question [top] req.industry
          req.scenario) true (sourcesOf [top])
    else
      .answer (buildComprehensiveAnswer question relevant req.industry
        req.scenario) false (sourcesOf relevant)

/-- The spec-level `rank` contract (§4.3), as the code realises it inline
in the handler: the ranked-and-filtered entries plus the `lowConfidence`
flag (initially `false`, set only by the fallback). -/
noncomputable def rankPipeline (qvec : TermVec) (index : List Chunk)
    (top_k : Nat) : List Scored × Bool :=
  let scored := (sortByScoreDesc (scoredOf qvec index)).take top_k
  let relevant := scored.filter (fun s => (0.01 : ℝ) < s.score)
  if relevant.isEmpty then
    match scored with
    | [] => ([], false)
    | top :: _ => ([top], true)
  else (relevant, false)

/-- The JSON keys of each response shape, in serialization order. -/
def respKeys : AskResponse → List String
  | .errorQuestionRequired => ["error"]
  | .noInfo _ _ => ["answer_ar", "sources"]
  | .answer _ _ _ => ["answer_ar", "low_confidence", "sources"]

/-- The `low_confidence` field of a response, when present. -/
def respLowConf : AskResponse → Option Bool
  | .answer _ lc _ => some lc
  | _ => none

/-- The `sources` field of a response, when present. -/
def respSources : AskResponse → Option (List SourceRef)
  | .noInfo _ s => some s
  | .answer _ _ s => some s
  | _ => none

/-! ## Supporting lemmas -/

lemma look_eq_zero_of_not_mem {v : TermVec} {k : String}
    (h : k ∉ v.map Prod.fst) : look v k = 0 := by
  induction v with
  | nil => rfl
  | cons p t ih =>
    obtain ⟨a, b⟩ := p
    simp only [List.map_cons, List.mem_cons, not_or] at h
    have hne : (k == a) = false := beq_eq_false_iff_ne.mpr h.1
    simp only [look, List.lookup, hne]
    exact ih h.2

lemma mag1Acc_eq_magSq (v1 v2 : TermVec) : mag1Acc v1 v2 = (magSq v1 : ℝ) := by
  unfold mag1Acc magSq unionKeys
  push_cast
  refine (Finset.sum_subset Finset.subset_union_left ?_).symm
  intro k _ hnk
  have h0 : look v1 k = 0 := look_eq_zero_of_not_mem (by simpa using hnk)
  simp [h0]

lemma mag2Acc_eq_magSq (v1 v2 : TermVec) : mag2Acc v1 v2 = (magSq v2 : ℝ) := by
  unfold mag2Acc magSq unionKeys
  push_cast
  refine (Finset.sum_subset Finset.subset_union_right ?_).symm
  intro k _ hnk
  have h0 : look v2 k = 0 := look_eq_zero_of_not_mem (by simpa using hnk)
  simp [h0]

lemma unionKeys_comm (v1 v2 : TermVec) : unionKeys v1 v2 = unionKeys v2 v1 :=
  Finset.union_comm _ _

lemma dotProd_comm (v1 v2 : TermVec) : dotProd v1 v2 = dotProd v2 v1 := by
  unfold dotProd
  rw [unionKeys_comm]
  exact Finset.sum_congr rfl fun k _ => mul_comm _ _

lemma mag1Acc_swap (v1 v2 : TermVec) : mag1Acc v1 v2 = mag2Acc v2 v1 := by
  unfold mag1Acc mag2Acc
  rw [unionKeys_comm]

lemma mag2Acc_swap (v1 v2 : TermVec) : mag2Acc v1 v2 = mag1Acc v2 v1 := by
  unfold mag1Acc mag2Acc
  rw [unionKeys_comm]

lemma dotProd_nonneg (v1 v2 : TermVec) : 0 ≤ dotProd v1 v2 :=
  Finset.sum_nonneg fun _ _ => by positivity

lemma dotProd_eq_cast (v1 v2 : TermVec) : dotProd v1 v2 = (dotNat v1 v2 : ℝ) := by
  unfold dotProd dotNat
  push_cast
  rfl

lemma cosine_comm (v1 v2 : TermVec) : cosine v1 v2 = cosine v2 v1 := by
  unfold cosine
  rw [dotProd_comm, mag1Acc_swap v1 v2, mag2Acc_swap v1 v2,
    mul_comm (Real.sqrt (mag2Acc v2 v1)) (Real.sqrt (mag1Acc v2 v1))]

lemma cosine_nonneg (v1 v2 : TermVec) : 0 ≤ cosine v1 v2 := by
  unfold cosine
  split
  · exact le_refl 0
  · exact div_nonneg (dotProd_nonneg v1 v2)
      (mul_nonneg (Real.sqrt_nonneg _) (Real.sqrt_nonneg _))

lemma cosine_le_one (v1 v2 : TermVec) : cosine v1 v2 ≤ 1 := by
  unfold cosine
  split
  · norm_num
  · rename_i hne
    have hd : (0 : ℝ) ≤ Real.sqrt (mag1Acc v1 v2) * Real.sqrt (mag2Acc v1 v2) :=
      mul_nonneg (Real.sqrt_nonneg _) (Real.sqrt_nonneg _)
    have hpos : (0 : ℝ) < Real.sqrt (mag1Acc v1 v2) * Real.sqrt (mag2Acc v1 v2) :=
      lt_of_le_of_ne hd (Ne.symm hne)
    rw [div_le_one hpos]
    have hcs := Real.sum_mul_le_sqrt_mul_sqrt (unionKeys v1 v2)
      (fun k => (look v1 k : ℝ)) (fun k => (look v2 k : ℝ))
    simpa [dotProd, mag1Acc, mag2Acc, pow_two] using hcs

lemma cosine_eq_zero_of_magSq (v1 v2 : TermVec)
    (h : magSq v1 = 0 ∨ magSq v2 = 0) : cosine v1 v2 = 0 := by
  unfold cosine
  have hden : Real.sqrt (mag1Acc v1 v2) * Real.sqrt (mag2Acc v1 v2) = 0 := by
    rcases h with h | h
    · rw [mag1Acc_eq_magSq, h]
      simp
    · rw [mag2Acc_eq_magSq, h]
      simp
  rw [if_pos hden]

lemma cosine_eq_zero_of_dotNat {v1 v2 : TermVec} (h : dotNat v1 v2 = 0) :
    cosine v1 v2 = 0 := by
  have hd : dotProd v1 v2 = 0 := by rw [dotProd_eq_cast, h, Nat.cast_zero]
  unfold cosine
  split
  · rfl
  · rw [hd, zero_div]

lemma sortByScoreDesc_perm (l : List Scored) : (sortByScoreDesc l).Perm l :=
  List.perm_insertionSort _ l

lemma sortByScoreDesc_sorted (l : List Scored) :
    List.Sorted scoreDescRel (sortByScoreDesc l) :=
  List.sorted_insertionSort _ l

lemma filter_orderedInsert_pos (x : Scored) (s : ℝ) (l : List Scored)
    (hx : x.score = s) :
    (l.orderedInsert scoreDescRel x).filter (fun y => y.score = s) =
      x :: l.filter (fun y => y.score = s) := by
  induction l with
  | nil => simp [hx]
  | cons b t ih =>
    by_cases hr : scoreDescRel x b
    · rw [List.orderedInsert, if_pos hr]
      simp [hx]
    · rw [List.orderedInsert, if_neg hr]
      have hbs : ¬(b.score = s) := by
        intro hb
        exact hr (le_of_eq (hb.trans hx.symm))
      simp only [List.filter_cons]
      simp only [decide_eq_true_eq]
      rw [if_neg hbs, ih, if_neg hbs]

lemma filter_orderedInsert_neg (x : Scored) (s : ℝ) (l : List Scored)
    (hx : ¬(x.score = s)) :
    (l.orderedInsert scoreDescRel x).filter (fun y => y.score = s) =
      l.filter (fun y => y.score = s) := by
  induction l with
  | nil => simp [hx]
  | cons b t ih =>
    by_cases hr : scoreDescRel x b
    · rw [List.orderedInsert, if_pos hr]
      simp only [List.filter_cons, decide_eq_true_eq]
      rw [if_neg hx]
    · rw [List.orderedInsert, if_neg hr]
      simp only [List.filter_cons, decide_eq_true_eq]
      by_cases hbs : b.score = s
      · rw [if_pos hbs, if_pos hbs, ih]
      · rw [if_neg hbs, if_neg hbs, ih]

/-- Stability of the descending sort, in filter form: the subsequence of
entries having any fixed score is exactly the input's subsequence with
that score, in input order. -/
lemma filter_sortByScoreDesc (l : List Scored) (s : ℝ) :
    (sortByScoreDesc l).filter (fun y => y.score = s) =
      l.filter (fun y => y.score = s) := by
  induction l with
  | nil => rfl
  | cons x t ih =>
    show ((t.insertionSort scoreDescRel).orderedInsert scoreDescRel x).filter
      (fun y => y.score = s) = (x :: t).filter (fun y => y.score = s)
    by_cases hx : x.score = s
    · rw [filter_orderedInsert_pos x s _ hx]
      simp only [List.filter_cons, decide_eq_true_eq]
      rw [if_pos hx]
      exact congrArg _ ih
    · rw [filter_orderedInsert_neg x s _ hx]
      simp only [List.filter_cons, decide_eq_true_eq]
      rw [if_neg hx]
      exact ih

/-! ## Claim theorems (C1, C5, C8) -/

/-- **C1** (code bug): the claim — and the spec — require `tokenize` to
treat non-Latin (e.g. Arabic) word characters as word characters, but the
source uses the ASCII-only class `\w`, so every Arabic letter is replaced
by a space: a purely Arabic word tokenizes to nothing and the Arabic token
of a mixed-script text is discarded. -/
theorem c1_tokenize_discards_arabic :
    tokenize "مشكلة" = [] ∧ tokenize "Zoho مشكلة" = ["zoho"] := by decide

/-- **C5** (confirmed): cosine similarity is symmetric, lies in `[0, 1]`
for (necessarily non-negative) term vectors, and is exactly `0` — not NaN
or undefined — whenever either vector has zero magnitude. -/
theorem c5_cosine_symm_bounded_zero (v1 v2 : TermVec) :
    cosine v1 v2 = cosine v2 v1 ∧
    0 ≤ cosine v1 v2 ∧ cosine v1 v2 ≤ 1 ∧
    ((magSq v1 = 0 ∨ magSq v2 = 0) → cosine v1 v2 = 0) :=
  ⟨cosine_comm v1 v2, cosine_nonneg v1 v2, cosine_le_one v1 v2,
    cosine_eq_zero_of_magSq v1 v2⟩

/-- Instantiation of `c5_cosine_symm_bounded_zero` at concrete vectors
(the second one of zero magnitude). -/
theorem c5_witness :
    cosine [("a", 1)] [] = cosine [] [("a", 1)] ∧
    0 ≤ cosine [("a", 1)] [] ∧ cosine [("a", 1)] [] ≤ 1 ∧
    ((magSq [("a", 1)] = 0 ∨ magSq ([] : TermVec) = 0) →
      cosine [("a", 1)] [] = 0) :=
  c5_cosine_symm_bounded_zero [("a", 1)] []

/-- **C8** (confirmed): after the startup vectorization pass, every chunk
of the fixed (predominantly Arabic) corpus index carries a non-empty term
vector computed from its own `text`. -/
theorem c8_index_vectors_nonempty :
    builtIndex.Forall
      (fun c => c.vec ≠ [] ∧ c.vec = termFreqVector (tokenize c.text)) := by
  decide

/-- **C6** (confirmed): ranking is deterministic, and the stable
descending sort puts the scored passages in descending score order while
every group of equal-scored passages keeps its original corpus order
(stability stated in filter form). -/
theorem c6_ranking_stable (q : String) (index : List Chunk) (s : ℝ) :
    sortByScoreDesc (scoredOf (queryVec q) index) =
      sortByScoreDesc (scoredOf (queryVec q) index) ∧
    List.Sorted scoreDescRel (sortByScoreDesc (scoredOf (queryVec q) index)) ∧
    (sortByScoreDesc (scoredOf (queryVec q) index)).Perm
      (scoredOf (queryVec q) index) ∧
    (sortByScoreDesc (scoredOf (queryVec q) index)).filter
        (fun y => y.score = s) =
      (scoredOf (queryVec q) index).filter (fun y => y.score = s) :=
  ⟨rfl, sortByScoreDesc_sorted _, sortByScoreDesc_perm _,
    filter_sortByScoreDesc _ s⟩

/-- **C9** (confirmed): a request with no `question` is answered with the
error response before any ranking: the response is the error body and is
independent of the corpus. -/
theorem c9_missing_question_error (req : AskRequest)
    (index index' : List Chunk) (hq : req.question = none) :
    askHandler req index = .errorQuestionRequired ∧
    askHandler req index = askHandler req index' := by
  constructor
  · simp only [askHandler, hq]
  · simp only [askHandler, hq]

/-- Instantiation of `c9_missing_question_error` at a concrete
question-less request and two different corpora. -/
theorem c9_witness :
    askHandler ⟨none, none, none, none⟩ builtIndex = .errorQuestionRequired ∧
    askHandler ⟨none, none, none, none⟩ builtIndex =
      askHandler ⟨none, none, none, none⟩ [] :=
  c9_missing_question_error ⟨none, none, none, none⟩ builtIndex [] rfl

/-- **C4** (confirmed): on an empty corpus the ranking stage returns an
empty result with `lowConfidence = false`, and the handler responds with
the fixed no-information message and an empty `sources` list. -/
theorem c4_empty_corpus (req : AskRequest) (q : String)
    (hq : req.question = some q) (hqne : q ≠ "") :
    rankPipeline (queryVec q) [] (req.top_k.getD 6) = ([], false) ∧
    askHandler req [] = .noInfo noInfoMsg [] ∧
    respSources (askHandler req []) = some [] := by
  have h1 : rankPipeline (queryVec q) [] (req.top_k.getD 6) = ([], false) := by
    simp [rankPipeline, scoredOf, sortByScoreDesc, List.take_nil]
  have h2 : askHandler req [] = .noInfo noInfoMsg [] := by
    simp only [askHandler, hq]
    rw [if_neg hqne]
    simp [scoredOf, sortByScoreDesc, List.take_nil]
  exact ⟨h1, h2, by rw [h2]; rfl⟩

/-- Instantiation of `c4_empty_corpus` at a concrete request. -/
theorem c4_witness :
    rankPipeline (queryVec "hello") []
      ((AskRequest.mk (some "hello") none none none).top_k.getD 6) =
        ([], false) ∧
    askHandler ⟨some "hello", none, none, none⟩ [] = .noInfo noInfoMsg [] ∧
    respSources (askHandler ⟨some "hello", none, none, none⟩ []) = some [] :=
  c4_empty_corpus ⟨some "hello", none, none, none⟩ "hello" rfl (by decide)

/-- **C10** (confirmed, implicit): with `top_k = 0` and a present question
the handler returns the no-information response with empty sources even on
a non-empty corpus — the slice empties the ranked set before the fallback
check, so the single-top-passage fallback is not taken. -/
theorem c10_topk_zero_noinfo (req : AskRequest) (q : String)
    (index : List Chunk) (hq : req.question = some q) (hqne : q ≠ "")
    (hk : req.top_k = some 0) (hidx : index ≠ []) :
    askHandler req index = .noInfo noInfoMsg [] ∧
    scoredOf (queryVec q) index ≠ [] ∧
    rankPipeline (queryVec q) index 0 = ([], false) := by
  refine ⟨?_, ?_, rfl⟩
  · simp only [askHandler, hq, hk]
    rw [if_neg hqne]
    simp
  · simpa [scoredOf] using hidx

/-- **C3** (confirmed): when the corpus is non-empty, `top_k` is at least
one, and every passage scores at most `0.01` against the query, the
relevance filter empties and the fallback keeps exactly the single
top-scoring entry — the head of the descending sort, whose score bounds
every passage's score — and the response carries `low_confidence = true`
with that entry as its only source. -/
theorem c3_all_low_single_fallback (req : AskRequest) (q : String)
    (index : List Chunk) (hq : req.question = some q) (hqne : q ≠ "")
    (hidx : index ≠ []) (hk : 1 ≤ req.top_k.getD 6)
    (hlow : ∀ c ∈ index, cosine (queryVec q) c.vec ≤ 0.01) :
    ∃ t : Scored,
      (sortByScoreDesc (scoredOf (queryVec q) index)).head? = some t ∧
      t ∈ scoredOf (queryVec q) index ∧
      rankPipeline (queryVec q) index (req.top_k.getD 6) = ([t], true) ∧
      askHandler req index =
        .answer (buildComprehensiveAnswer q [t] req.industry req.scenario)
          true (sourcesOf [t]) ∧
      (∀ c ∈ index, cosine (queryVec q) c.vec ≤ t.score) := by
  have hLne : scoredOf (queryVec q) index ≠ [] := by
    simpa [scoredOf] using hidx
  obtain ⟨t, rest, hsort⟩ :
      ∃ t rest, sortByScoreDesc (scoredOf (queryVec q) index) = t :: rest := by
    cases hs : sortByScoreDesc (scoredOf (queryVec q) index) with
    | nil =>
      have hperm := sortByScoreDesc_perm (scoredOf (queryVec q) index)
      rw [hs] at hperm
      exact absurd hperm.symm.eq_nil hLne
    | cons t rest => exact ⟨t, rest, rfl⟩
  have hLlow : ∀ s ∈ scoredOf (queryVec q) index, s.score ≤ (0.01 : ℝ) := by
    intro s hs
    simp only [scoredOf, List.mem_map] at hs
    obtain ⟨c, hc, rfl⟩ := hs
    exact hlow c hc
  obtain ⟨k', hk'⟩ : ∃ k', req.top_k.getD 6 = k' + 1 := by
    cases hkk : req.top_k.getD 6 with
    | zero => rw [hkk] at hk; omega
    | succ n => exact ⟨n, rfl⟩
  have htake : (sortByScoreDesc (scoredOf (queryVec q) index)).take
      (req.top_k.getD 6) = t :: rest.take k' := by
    rw [hsort, hk']
    rfl
  have hmemL : ∀ a, a ∈ t :: rest.take k' →
      a ∈ scoredOf (queryVec q) index := by
    intro a ha
    refine (sortByScoreDesc_perm (scoredOf (queryVec q) index)).subset ?_
    rw [hsort]
    rcases List.mem_cons.mp ha with h | h
    · exact h ▸ List.mem_cons_self _ _
    · exact List.mem_cons_of_mem _ (List.take_subset k' rest h)
  have hfil : (t :: rest.take k').filter
      (fun s => (0.01 : ℝ) < s.score) = [] := by
    rw [List.filter_eq_nil_iff]
    intro a ha
    simp only [decide_eq_true_eq]
    exact not_lt.mpr (hLlow a (hmemL a ha))
  have hmax : ∀ s ∈ scoredOf (queryVec q) index, s.score ≤ t.score := by
    intro s hs
    have h1 : s ∈ t :: rest := by
      rw [← hsort]
      exact (sortByScoreDesc_perm (scoredOf (queryVec q) index)).symm.subset hs
    rcases List.mem_cons.mp h1 with h | h
    · rw [h]
    · have hsorted := sortByScoreDesc_sorted (scoredOf (queryVec q) index)
      rw [hsort] at hsorted
      exact List.rel_of_sorted_cons hsorted s h
  refine ⟨t, by rw [hsort]; rfl, hmemL t (List.mem_cons_self _ _), ?_, ?_, ?_⟩
  · unfold rankPipeline
    rw [htake]
    simp [hfil]
  · simp only [askHandler, hq]
    rw [if_neg hqne]
    rw [htake]
    simp [hfil]
  · intro c hc
    have hmem : (⟨c.id, c.file, c.chunk_index, c.text,
        cosine (queryVec q) c.vec⟩ : Scored) ∈ scoredOf (queryVec q) index :=
      List.mem_map_of_mem _ hc
    exact hmax _ hmem

/-- Instantiation of `c3_all_low_single_fallback` at a query sharing no
vocabulary with a one-chunk corpus (every score is `0 ≤ 0.01`): the
response is low-confidence with exactly one source. -/
theorem c3_witness :
    respLowConf (askHandler ⟨some "xyz", none, none, none⟩
      [⟨"c1", "f.md", 0, "abc", [("abc", 1)]⟩]) = some true ∧
    (respSources (askHandler ⟨some "xyz", none, none, none⟩
      [⟨"c1", "f.md", 0, "abc", [("abc", 1)]⟩])).map List.length = some 1 := by
  have hlow : ∀ c ∈ ([⟨"c1", "f.md", 0, "abc", [("abc", 1)]⟩] : List Chunk),
      cosine (queryVec "xyz") c.vec ≤ 0.01 := by
    intro c hc
    have hc' : c = ⟨"c1", "f.md", 0, "abc", [("abc", 1)]⟩ := by
      simpa using hc
    subst hc'
    have h0 : cosine (queryVec "xyz") [("abc", 1)] = 0 :=
      cosine_eq_zero_of_dotNat (by decide)
    rw [h0]
    norm_num
  obtain ⟨t, -, -, -, h4, -⟩ :=
    c3_all_low_single_fallback ⟨some "xyz", none, none, none⟩ "xyz"
      [⟨"c1", "f.md", 0, "abc", [("abc", 1)]⟩] rfl (by decide) (by decide)
      (by decide) hlow
  rw [h4]
  exact ⟨rfl, rfl⟩

/-- Instantiation of `c10_topk_zero_noinfo` at a concrete request with
`top_k = 0` against the built-in (non-empty) corpus. -/
theorem c10_witness :
    askHandler ⟨some "hello", none, none, some 0⟩ builtIndex =
      .noInfo noInfoMsg [] ∧
    scoredOf (queryVec "hello") builtIndex ≠ [] ∧
    rankPipeline (queryVec "hello") builtIndex 0 = ([], false) :=
  c10_topk_zero_noinfo ⟨some "hello", none, none, some 0⟩ "hello" builtIndex
    rfl (by decide) rfl (by decide)

/-- **C2** (counterexample): a handled question whose response envelope
carries no `query_mode` key at all — this revision of the handler emits
only `answer_ar`, (`low_confidence`,) `sources` and performs no intent
classification. -/
theorem c2_no_query_mode_cex :
    respKeys (askHandler ⟨some "hello", none, none, none⟩ []) =
      ["answer_ar", "sources"] ∧
    "query_mode" ∉ respKeys (askHandler ⟨some "hello", none, none, none⟩ []) := by
  have h : respKeys (askHandler ⟨some "hello", none, none, none⟩ []) =
      ["answer_ar", "sources"] := rfl
  refine ⟨h, ?_⟩
  rw [h]
  decide

/-- **C2** (amended): no response of the ask operation contains a
`query_mode` field; the possible envelopes carry exactly the keys
`error`, or `answer_ar`/`sources`, or
`answer_ar`/`low_confidence`/`sources`. -/
theorem c2_amended_no_query_mode (req : AskRequest) (index : List Chunk) :
    "query_mode" ∉ respKeys (askHandler req index) ∧
    (respKeys (askHandler req index) = ["error"] ∨
     respKeys (askHandler req index) = ["answer_ar", "sources"] ∨
     respKeys (askHandler req index) =
       ["answer_ar", "low_confidence", "sources"]) := by
  cases h : askHandler req index <;> simp [respKeys]

lemma joinWith_cons_decomp (sep s : String) (rest : List String) :
    ∃ tail : String, joinWith sep (s :: rest) = s ++ tail := by
  cases rest with
  | nil => exact ⟨"", by simp [joinWith]⟩
  | cons r rs =>
    refine ⟨sep ++ joinWith sep (r :: rs), ?_⟩
    show s ++ sep ++ joinWith sep (r :: rs) =
      s ++ (sep ++ joinWith sep (r :: rs))
    rw [String.append_assoc]

lemma renderPoints_ne_empty (p : String) (rest : List String) :
    renderPoints (p :: rest) ≠ "" := by
  unfold renderPoints renderPointsAux
  obtain ⟨tail, htail⟩ := joinWith_cons_decomp "\n"
    (toString (0 + 1) ++ ". " ++ jsTrim p ++ ".") (renderPointsAux (0 + 1) rest)
  rw [htail]
  intro hcontra
  have hdata := congrArg String.data hcontra
  simp [String.data_append] at hdata

/-- **C7** (counterexample): a chunk whose first sentence is short and
whose second to fourth sentences all qualify: the code keeps only the
qualifying ones among the *first three* sentences (two points), while the
claim's reading — the first up to three qualifying sentences — would also
keep the fourth sentence as a third point. -/
theorem c7_summary_cex :
    generateSummary [⟨"a", "f", 0,
        "aa. This sentence is definitely long enough one. This sentence is definitely long enough two. This sentence is definitely long enough three.",
        0⟩] =
      "1. This sentence is definitely long enough one.\n2. This sentence is definitely long enough two." ∧
    specGenerateSummary [⟨"a", "f", 0,
        "aa. This sentence is definitely long enough one. This sentence is definitely long enough two. This sentence is definitely long enough three.",
        0⟩] =
      "1. This sentence is definitely long enough one.\n2. This sentence is definitely long enough two.\n3. This sentence is definitely long enough three." ∧
    generateSummary [⟨"a", "f", 0,
        "aa. This sentence is definitely long enough one. This sentence is definitely long enough two. This sentence is definitely long enough three.",
        0⟩] ≠
      specGenerateSummary [⟨"a", "f", 0,
        "aa. This sentence is definitely long enough one. This sentence is definitely long enough two. This sentence is definitely long enough three.",
        0⟩] := by
  refine ⟨by decide, by decide, ?_⟩
  intro hcontra
  have h1 : generateSummary [⟨"a", "f", 0,
      "aa. This sentence is definitely long enough one. This sentence is definitely long enough two. This sentence is definitely long enough three.",
      0⟩] =
      "1. This sentence is definitely long enough one.\n2. This sentence is definitely long enough two." := by decide
  have h2 : specGenerateSummary [⟨"a", "f", 0,
      "aa. This sentence is definitely long enough one. This sentence is definitely long enough two. This sentence is definitely long enough three.",
      0⟩] =
      "1. This sentence is definitely long enough one.\n2. This sentence is definitely long enough two.\n3. This sentence is definitely long enough three." := by decide
  rw [h1, h2] at hcontra
  exact absurd hcontra (by decide)

/-- **C7** (amended): the executive summary keeps those among the *first
three* sentences of the concatenated text whose trimmed length exceeds 20
characters (0–3 numbered points), and substitutes the fixed fallback
sentence exactly when none of the first three qualifies — later
qualifying sentences are never considered. -/
theorem c7_summary_amended (chunks : List Scored) :
    generateSummary chunks =
      (if summaryPoints chunks = [] then summaryFallback
       else renderPoints (summaryPoints chunks)) ∧
    summaryPoints chunks =
      ((sentencesSummary chunks).take 3).filter (fun s => 20 < (jsTrim s).length) := by
  refine ⟨?_, rfl⟩
  unfold generateSummary jsOr
  by_cases h : summaryPoints chunks = []
  · rw [if_pos h, h]
    simp [renderPoints, renderPointsAux, joinWith]
  · rw [if_neg h]
    obtain ⟨p, rest, hp⟩ := List.exists_cons_of_ne_nil h
    rw [hp, if_neg (renderPoints_ne_empty p rest)]

end ZohoQna

-- sanity examples (tokenizer)
example : ZohoQna.tokenize "Hello, World!" = ["hello", "world"] := by decide
example : ZohoQna.tokenize "  " = [] := by decide
example : ZohoQna.termFreqVector ["a", "b", "a"] = [("a", 2), ("b", 1)] := by
  decide
